import Mathlib

/-!
Shallow embedding of the ContractVault dispute-resolution pipeline
(`src/dispute.py`).  Pure Python string operations are embedded as
executable functions on `List Char`; every outbound call (Gemini
inference, GitHub contents API, Google Drive listing API, `requests.get`,
BeautifulSoup, `json.loads`) is an oracle field of an `Env` record, whose
`Except String` result models either the returned value or a raised
exception carrying its message.
-/

namespace ContractVault

/-! ## Python string primitives -/

/-- Whether `needle` is a prefix of `hay` (character lists). -/
def charsStartWith : List Char → List Char → Bool
  | [], _ => true
  | _ :: _, [] => false
  | a :: as, b :: bs => a == b && charsStartWith as bs

/-- Whether `needle` occurs contiguously inside `hay`; models Python's
`needle in hay` on strings. -/
def charsHave (needle : List Char) : List Char → Bool
  | [] => needle.isEmpty
  | b :: bs => charsStartWith needle (b :: bs) || charsHave needle bs

/-- Python's `needle in hay` substring test. -/
def pyIn (needle hay : String) : Bool :=
  charsHave needle.data hay.data

/-- Fuel-driven worker for `pyReplace`; the fuel is the length of the
scanned list, so it never runs out. -/
def replaceFuel (pat repl : List Char) : Nat → List Char → List Char
  | _, [] => []
  | 0, l => l
  | fuel + 1, c :: rest =>
    if pat ≠ [] && charsStartWith pat (c :: rest) then
      repl ++ replaceFuel pat repl fuel (rest.drop (pat.length - 1))
    else
      c :: replaceFuel pat repl fuel rest

/-- Python's `s.replace(pat, repl)` for a non-empty pattern: replaces every
non-overlapping occurrence, scanning left to right. -/
def pyReplace (s pat repl : String) : String :=
  String.mk (replaceFuel pat.data repl.data s.data.length s.data)

/-- The six ASCII characters Python's `str.strip()` removes. -/
def isPySpace (c : Char) : Bool :=
  c == ' ' || c == '\t' || c == '\n' || c == '\r' || c == '\x0b' || c == '\x0c'

/-- Drop matching characters from both ends of a character list. -/
def charsStripBy (p : Char → Bool) (l : List Char) : List Char :=
  ((l.dropWhile p).reverse.dropWhile p).reverse

/-- Python's `s.strip()` (ASCII whitespace). -/
def pyStrip (s : String) : String :=
  String.mk (charsStripBy isPySpace s.data)

/-- Python's `s.strip(c)` for a single strip character. -/
def pyStripChar (s : String) (c : Char) : String :=
  String.mk (charsStripBy (· == c) s.data)

/-- Fuel-driven worker for `pySplit`. -/
def splitFuel (sep : List Char) : Nat → List Char → List Char → List (List Char)
  | _, acc, [] => [acc.reverse]
  | 0, acc, l => [acc.reverse ++ l]
  | fuel + 1, acc, c :: rest =>
    if sep ≠ [] && charsStartWith sep (c :: rest) then
      acc.reverse :: splitFuel sep fuel [] (rest.drop (sep.length - 1))
    else
      splitFuel sep fuel (c :: acc) rest

/-- Python's `s.split(sep)` for a non-empty separator: `"a//b".split("/") =
["a", "", "b"]` and `"".split("/") = [""]`. -/
def pySplit (s sep : String) : List String :=
  (splitFuel sep.data s.data.length [] s.data).map String.mk

/-- Python's `s.endswith(suffix)`. -/
def pyEndsWith (s suffix : String) : Bool :=
  charsStartWith suffix.data.reverse s.data.reverse

/-- Python's `s[:-n]` for `n` at most `len(s)`: drops the last `n` characters. -/
def pyDropRight (s : String) (n : Nat) : String :=
  String.mk (s.data.take (s.data.length - n))

/-- Python's `str(list_of_strings)`; repr escaping inside the names is not
modelled (the file names the claims use contain no quotes). -/
def pyStrList (l : List String) : String :=
  "[" ++ String.intercalate ", " (l.map (fun s => "'" ++ s ++ "'")) ++ "]"

/-! ## Data model (spec section 3, read off the source) -/

/-- The `contractData` fields read by `dispute.py`; a `none` field models a
missing key, so `Option.getD` mirrors `dict.get(key, default)`. -/
structure ContractDetails where
  projectDescription : Option String := none
  task : Option (List String) := none
  links : Option (List String) := none
deriving DecidableEq

/-- The evidence value bound in `get_ai_dispute_verdict`: a file-name list
(GitHub or Drive) or scraped page text. -/
inductive EvidenceVal where
  | fileList (names : List String)
  | text (body : String)
deriving DecidableEq

/-- Python truthiness of the evidence value: an empty list and an empty
string are falsy, as tested by `if not evidence:`. -/
def evTruthy : EvidenceVal → Bool
  | .fileList l => !l.isEmpty
  | .text s => !(s == "")

/-- Python's `str(evidence)` as interpolated into the judge prompt. -/
def pyStrEvidence : EvidenceVal → String
  | .fileList l => pyStrList l
  | .text s => s

/-- The two-field structured verdict decoded from the judge's JSON reply
(`decision`, `justification`). -/
structure Verdict where
  decision : String
  justification : String
deriving DecidableEq

/-- The status/reason dictionary `get_ai_dispute_verdict` returns. -/
structure DisputeOutcome where
  status : String
  reason : String
deriving DecidableEq

/-- One value a `contractData` entry can hold in a request body (the shapes
the endpoint's contract uses: text, or a list of texts). -/
inductive PyVal where
  | vStr (s : String)
  | vList (xs : List String)
deriving DecidableEq

/-- A JSON object, as an association list keyed by strings. -/
abbrev PyDict := List (String × PyVal)

/-- The HTTP replies `handle_dispute` can produce: a 200 `ok: true` body
carrying status and reason, or an `ok: false` error body with its code. -/
inductive HttpResp where
  | success (status reason : String)
  | failure (code : Nat) (error : String)
deriving DecidableEq

/-! ## The oracle environment

Each field stands for one outbound library call; `Except.error msg` models
that call raising an exception whose text is `msg`. -/

/-- External-call oracles for one request. -/
structure Env where
  /-- Gemini `generate_content(...).text` for the role prompt
  (`_classify_freelancer_role`). -/
  roleAi : String → Except String String
  /-- `requests.get` + `raise_for_status` + `response.json()` name
  extraction against the GitHub contents endpoint, keyed by the API URL. -/
  githubApi : String → Except String (List String)
  /-- Google Drive `files().list(...)` name extraction, keyed by the folder
  id. -/
  driveApi : String → Except String (List String)
  /-- `requests.get(url, timeout=15)` + `raise_for_status` + `.content` in
  `scrape_website_text`; its failures are `requests.RequestException`s. -/
  webGet : String → Except String String
  /-- The BeautifulSoup step of `scrape_website_text`: parse the document,
  drop script/style, join the stripped strings.  Its failures (for example
  a `RecursionError` on deeply nested markup) are not
  `requests.RequestException`s. -/
  htmlToText : String → Except String String
  /-- Gemini `generate_content(...).text` for the judge prompt
  (`_verify_proof_with_role`). -/
  judgeAi : String → Except String String
  /-- `json.loads` of the cleaned reply, read as the two-field verdict
  record of the spec's data model. -/
  jsonDecode : String → Except String Verdict

/-! ## Evidence-gathering helpers (`dispute.py` section 2) -/

/-- The owner/repo extraction at the head of `get_github_repo_contents`:
`parts = repo_url.strip('/').split('/'); owner, repo = parts[-2], parts[-1]`
followed by the `.git`-suffix fix.  Negative indexing raises `IndexError`
when the split yields fewer than two parts. -/
def parse_owner_repo (repo_url : String) : Except String (String × String) :=
  let parts := pySplit (pyStripChar repo_url '/') "/"
  if h : 2 ≤ parts.length then
    let owner := parts.get ⟨parts.length - 2, by omega⟩
    let repo := parts.get ⟨parts.length - 1, by omega⟩
    .ok (owner, if pyEndsWith repo ".git" then pyDropRight repo 4 else repo)
  else
    .error "IndexError: list index out of range"

/-- The contents-endpoint URL built from owner and repo. -/
def githubApiUrl (owner repo : String) : String :=
  "https://api.github.com/repos/" ++ owner ++ "/" ++ repo ++ "/contents/"

/-- The body of `get_github_repo_contents`'s `try` block. -/
def githubFetch (env : Env) (repo_url : String) : Except String (List String) := do
  let (owner, repo) ← parse_owner_repo repo_url
  env.githubApi (githubApiUrl owner repo)

/-- `get_github_repo_contents`: the `except Exception` clause turns every
failure of the body into a `None` return, so the function itself never
raises. -/
def get_github_repo_contents (env : Env) (repo_url : String) :
    Except String (Option (List String)) :=
  match githubFetch env repo_url with
  | .ok names => .ok (some names)
  | .error _ => .ok none

/-- `folder_url.split('/')[-1].split('?')[0]` in
`get_google_drive_folder_contents`; both indexings are safe because
`split` never returns an empty list. -/
def drive_folder_id (folder_url : String) : String :=
  (pySplit ((pySplit folder_url "/").getLastD "") "?").headD ""

/-- `get_google_drive_folder_contents`: the `except Exception` clause turns
every failure into a `None` return. -/
def get_google_drive_folder_contents (env : Env) (folder_url : String) :
    Except String (Option (List String)) :=
  match env.driveApi (drive_folder_id folder_url) with
  | .ok names => .ok (some names)
  | .error _ => .ok none

/-- `scrape_website_text`: the `except` clause catches only
`requests.RequestException` (the `webGet` failures) and returns `None`;
a failure of the BeautifulSoup step is not caught and propagates to the
caller as a raised exception. -/
def scrape_website_text (env : Env) (url : String) :
    Except String (Option String) :=
  match env.webGet url with
  | .error _ => .ok none
  | .ok content => (env.htmlToText content).map some

/-! ## Core AI logic (`dispute.py` section 3) -/

/-- The instruction text of `_classify_freelancer_role`'s prompt literal. -/
def rolePromptHeader : String :=
  "Analyze the following contract details and classify the freelancer's role into ONE of these categories: \"UI/UX Designer\", \"Graphic Designer\", \"Web Developer\", \"Content Writer\", \"Social Media Manager\". Respond with only the category name."

/-- The full string passed to `generate_content` in
`_classify_freelancer_role`. -/
def rolePrompt (contract_details : ContractDetails) : String :=
  rolePromptHeader ++ "\n\n**Contract Details:**\n- Project Description: "
    ++ contract_details.projectDescription.getD ""
    ++ "\n- Tasks: " ++ String.intercalate "\n- " (contract_details.task.getD [])

/-- `_classify_freelancer_role`: on success it returns
`response.text.strip().replace('"', '')` unchanged — the result is not
checked against the category list; on any exception it returns
`"Unknown"`. -/
def _classify_freelancer_role (env : Env) (contract_details : ContractDetails) :
    String :=
  match env.roleAi (rolePrompt contract_details) with
  | .ok t => pyReplace (pyStrip t) "\"" ""
  | .error _ => "Unknown"

/-- The judge prompt of `_verify_proof_with_role` after `.format` (the
`freelancer_role` keyword argument has no placeholder in the template, so
it does not appear in the result). -/
def judgePrompt (contract_details : ContractDetails) (evidence : EvidenceVal)
    (evidence_type : String) : String :=
  "\n    You are an AI dispute resolution agent. Your task is to analyze the provided proof against the contract requirements. Your goal is to determine if the proof is a PLAUSIBLE match for the work described.\n\n    **Contract Requirements:**\n    - Project Description: "
    ++ contract_details.projectDescription.getD ""
    ++ "\n    - Tasks: " ++ String.intercalate "\n- " (contract_details.task.getD [])
    ++ "\n\n    **Evidence Provided (" ++ evidence_type ++ "):**\n    "
    ++ pyStrEvidence evidence
    ++ "\n\n    **Your Analysis:**\n    Based on the evidence, is it plausible that the work described has been completed?\n\n    **Respond in JSON format with two keys:**\n    1. \"decision\": Must be \"approved\" or \"needs_review\".\n    2. \"justification\": A brief, one-sentence explanation.\n    "

/-- `response.text.strip().replace("` ``json", "").replace("` ``", "")`
(the fence markers written here with a space so this comment holds no
triple backtick). -/
def stripCodeFences (s : String) : String :=
  pyReplace (pyReplace (pyStrip s) "```json" "") "```" ""

/-- `_verify_proof_with_role`: the AI reply is fence-stripped, then JSON
decoded; if either the call or the decode raises, the `except` clause
returns the error verdict.  The `freelancer_role` argument only reaches a
log line and the unused `.format` keyword. -/
def _verify_proof_with_role (env : Env) (contract_details : ContractDetails)
    (evidence : EvidenceVal) (evidence_type : String)
    (freelancer_role : String) : Verdict :=
  match env.judgeAi (judgePrompt contract_details evidence evidence_type) with
  | .error e => ⟨"error", "Gemini API error: " ++ e⟩
  | .ok raw =>
    match env.jsonDecode (stripCodeFences raw) with
    | .ok v => v
    | .error e => ⟨"error", "Gemini API error: " ++ e⟩

/-! ## The orchestrator (`get_ai_dispute_verdict`) -/

/-- The provider kinds the URL dispatch of lines 147-155 can choose. -/
inductive ProviderKind where
  | github
  | drive
  | scrape
deriving DecidableEq

/-- The `if "github.com" in proof_url / elif "drive.google.com" in
proof_url / else` dispatch. -/
def selectProvider (proof_url : String) : ProviderKind :=
  if pyIn "github.com" proof_url then .github
  else if pyIn "drive.google.com" proof_url then .drive
  else .scrape

/-- Runs the selected provider and pairs its result with the
`evidence_type` label set in the same branch. -/
def gatherEvidence (env : Env) (proof_url : String) :
    Except String (Option EvidenceVal × String) :=
  match selectProvider proof_url with
  | .github =>
    match get_github_repo_contents env proof_url with
    | .ok r => .ok (r.map EvidenceVal.fileList, "List of Files from GitHub")
    | .error e => .error e
  | .drive =>
    match get_google_drive_folder_contents env proof_url with
    | .ok r => .ok (r.map EvidenceVal.fileList, "List of Files from Google Drive")
    | .error e => .error e
  | .scrape =>
    match scrape_website_text env proof_url with
    | .ok r => .ok (r.map EvidenceVal.text, "Scraped Website Content")
    | .error e => .error e

/-- The final mapping of lines 162-168: `decision == "approved"` yields
`accepted`, anything else `not accepted`, the reason being the
justification either way. -/
def mapVerdict (v : Verdict) : DisputeOutcome :=
  if v.decision = "approved" then ⟨"accepted", v.justification⟩
  else ⟨"not accepted", v.justification⟩

/-- `get_ai_dispute_verdict`.  The source binds `freelancer_role` once;
classification is pure in this embedding, so the two occurrences below
denote that single value.  `if not evidence:` covers both the `None`
return of a provider and a falsy (empty) evidence value, hence the
`none` case and the `evTruthy` test.  An uncaught provider exception
(`scrape_website_text`'s parse step) propagates as `.error`. -/
def get_ai_dispute_verdict (env : Env) (contract_details : ContractDetails) :
    Except String DisputeOutcome :=
  if _classify_freelancer_role env contract_details = "Unknown" then
    .ok ⟨"not accepted", "Could not determine freelancer role from contract."⟩
  else
    match contract_details.links.getD [] with
    | [] => .ok ⟨"not accepted", "No proof links were provided."⟩
    | proof_url :: _ =>
      match gatherEvidence env proof_url with
      | .error e => .error e
      | .ok (none, _) =>
        .ok ⟨"not accepted",
          "Could not access or process the proof from the provided link: " ++ proof_url⟩
      | .ok (some ev, evidence_type) =>
        if evTruthy ev then
          .ok (mapVerdict (_verify_proof_with_role env contract_details ev
            evidence_type (_classify_freelancer_role env contract_details)))
        else
          .ok ⟨"not accepted",
            "Could not access or process the proof from the provided link: " ++ proof_url⟩

/-! ## The endpoint (`handle_dispute`) -/

/-- First-match lookup in a JSON object. -/
def dictGet (d : PyDict) (k : String) : Option PyVal :=
  match d.find? (fun kv => kv.1 == k) with
  | some kv => some kv.2
  | none => none

/-- Reads the three `contractData` members the pipeline consumes out of
the raw JSON object the endpoint received. -/
def parseContract (d : PyDict) : ContractDetails where
  projectDescription :=
    match dictGet d "projectDescription" with
    | some (.vStr s) => some s
    | _ => none
  task :=
    match dictGet d "task" with
    | some (.vList l) => some l
    | _ => none
  links :=
    match dictGet d "links" with
    | some (.vList l) => some l
    | _ => none

/-- `handle_dispute`, given the `body.get("contractData")` value (`none`
models a missing key).  `if not contract_details:` rejects both a missing
value and an empty object with the same 400 reply; the endpoint's
catch-all `except` turns a propagated pipeline exception into the 500
reply. -/
def handle_dispute (env : Env) (contractData : Option PyDict) : HttpResp :=
  match contractData with
  | none => .failure 400 "Missing 'contractData' in request body."
  | some [] => .failure 400 "Missing 'contractData' in request body."
  | some d =>
    match get_ai_dispute_verdict env (parseContract d) with
    | .ok out => .success out.status out.reason
    | .error _ => .failure 500 "An internal server error occurred."

/-! ## Concrete fixtures for witnesses and counterexamples -/

/-- An environment whose oracles ignore their argument and return fixed
results, in the field order of `Env`. -/
def mkEnv (role : Except String String) (gh dr : Except String (List String))
    (wg ht judge : Except String String) (dec : Except String Verdict) : Env :=
  ⟨fun _ => role, fun _ => gh, fun _ => dr, fun _ => wg, fun _ => ht,
    fun _ => judge, fun _ => dec⟩

/-- A happy-path environment: the role call answers a category, the GitHub
listing succeeds, and the judge approves. -/
def envA : Env :=
  mkEnv (.ok "Web Developer") (.ok ["index.html", "style.css"])
    (.error "unused") (.error "unused") (.error "unused")
    (.ok "```json\n\x7b\"decision\": \"approved\", \"justification\": \"Matches described landing page work.\"\x7d\n```")
    (.ok ⟨"approved", "Matches described landing page work."⟩)

/-- A contract whose single proof link is a GitHub URL. -/
def cdA : ContractDetails :=
  ⟨some "Build a landing page", some ["design mockup"],
    some ["https://github.com/acme/widgets"]⟩

/-- A contract with an empty links list. -/
def cdEmptyLinks : ContractDetails :=
  ⟨some "Build a landing page", some ["design mockup"], some []⟩

/-- An environment whose role call raises. -/
def envRoleErr : Env :=
  mkEnv (.error "503 Service Unavailable") (.error "unused") (.error "unused")
    (.error "unused") (.error "unused") (.error "unused") (.error "unused")

/-- An environment where the role call answers a string outside the
category list. -/
def envBanana : Env :=
  mkEnv (.ok "Senior Banana Farmer") (.error "unused") (.error "unused")
    (.error "unused") (.error "unused") (.error "unused") (.error "unused")

/-- An environment where classification succeeds but the GitHub listing
fails. -/
def envNoEvidence : Env :=
  mkEnv (.ok "Web Developer") (.error "404 Not Found") (.error "unused")
    (.error "unused") (.error "unused") (.error "unused") (.error "unused")

/-- The fixed label set of the spec's `RoleLabel` data model (the five
categories of the classification prompt plus the `Unknown` sentinel). -/
def roleLabels : List String :=
  ["UI/UX Designer", "Graphic Designer", "Web Developer", "Content Writer",
    "Social Media Manager", "Unknown"]

/-- Scenario A's request object: well-formed fields, empty links list. -/
def dScenarioA : PyDict :=
  [("projectDescription", .vStr "Build a landing page"),
    ("task", .vList ["design mockup"]),
    ("links", .vList [])]

/-- `env` with the judge-stage oracles replaced. -/
def setJudge (env : Env) (jAi : String → Except String String)
    (jDec : String → Except String Verdict) : Env :=
  { env with judgeAi := jAi, jsonDecode := jDec }

/-- `env` with every oracle after role classification replaced. -/
def setProviders (env : Env) (gh dr : String → Except String (List String))
    (wg ht : String → Except String String)
    (jAi : String → Except String String)
    (jDec : String → Except String Verdict) : Env :=
  { env with
      githubApi := gh
      driveApi := dr
      webGet := wg
      htmlToText := ht
      judgeAi := jAi
      jsonDecode := jDec }

/-! ## Claims -/

/-- C2: evidence-provider selection is a pure function of the first proof
link's substring content with fixed priority: a URL containing
"github.com" selects the repository provider (regardless of any other
substring), one containing "drive.google.com" and not "github.com"
selects the folder provider, and every other URL falls back to the
web-scrape provider. -/
theorem claim_C2 (url : String) :
    (pyIn "github.com" url = true → selectProvider url = .github) ∧
    (pyIn "github.com" url = false → pyIn "drive.google.com" url = true →
      selectProvider url = .drive) ∧
    (pyIn "github.com" url = false → pyIn "drive.google.com" url = false →
      selectProvider url = .scrape) := by
  refine ⟨fun h => ?_, fun h1 h2 => ?_, fun h1 h2 => ?_⟩ <;>
    simp [selectProvider, *]

/-- Witness for C2 at three concrete URLs; the first contains both
"github.com" and, later in the string, "drive.google.com". -/
theorem claim_C2_witness :
    selectProvider "https://github.com/a/b?mirror=drive.google.com" =
      .github ∧
    selectProvider "https://drive.google.com/drive/folders/ABC123" = .drive ∧
    selectProvider "https://myproject.vercel.app" = .scrape :=
  ⟨(claim_C2 _).1 (by decide),
    (claim_C2 _).2.1 (by decide) (by decide),
    (claim_C2 _).2.2 (by decide) (by decide)⟩

/-- C3 fails on the code: when the AI call succeeds, the cleaned response
text is returned verbatim without being checked against the label set, so
the classifier can return a string that is neither one of the five
categories nor "Unknown". -/
theorem claim_C3_counterexample :
    _classify_freelancer_role envBanana cdA = "Senior Banana Farmer" ∧
    roleLabels.contains "Senior Banana Farmer" = false :=
  ⟨rfl, by decide⟩

/-- C3 amended: if the AI call raises, the classifier returns "Unknown";
if it succeeds, the classifier returns the response text stripped of
surrounding whitespace and of quotation marks, with no membership check
against the label set. -/
theorem claim_C3_amended (env : Env) (cd : ContractDetails) :
    (∀ e, env.roleAi (rolePrompt cd) = .error e →
      _classify_freelancer_role env cd = "Unknown") ∧
    (∀ t, env.roleAi (rolePrompt cd) = .ok t →
      _classify_freelancer_role env cd = pyReplace (pyStrip t) "\"" "") := by
  constructor <;> intro x h <;> simp [_classify_freelancer_role, h]

/-- Witness for the amended C3: a raising environment yields "Unknown",
and a quoted reply is cleaned to the bare label. -/
theorem claim_C3_amended_witness :
    _classify_freelancer_role envRoleErr cdA = "Unknown" ∧
    _classify_freelancer_role envA cdA = "Web Developer" :=
  ⟨(claim_C3_amended envRoleErr cdA).1 "503 Service Unavailable" rfl,
    ((claim_C3_amended envA cdA).2 "Web Developer" rfl).trans (by decide)⟩

/-- C4 fails on the code: the role check precedes the links check, so a
request with an empty links list still yields the role-related reason
whenever classification fails. -/
theorem claim_C4_counterexample :
    get_ai_dispute_verdict envRoleErr cdEmptyLinks =
      .ok ⟨"not accepted", "Could not determine freelancer role from contract."⟩ ∧
    "Could not determine freelancer role from contract." ≠
      "No proof links were provided." :=
  ⟨rfl, by decide⟩

/-- C4 amended: provided role classification does not yield "Unknown", a
request whose links list is empty yields the no-proof-links outcome
regardless of the other fields, and the endpoint maps it to the 200
`ok: true` reply carrying that status and reason. -/
theorem claim_C4_amended (env : Env) (d : PyDict)
    (hrole : _classify_freelancer_role env (parseContract d) ≠ "Unknown")
    (hlinks : (parseContract d).links.getD [] = [])
    (hd : d ≠ []) :
    get_ai_dispute_verdict env (parseContract d) =
      .ok ⟨"not accepted", "No proof links were provided."⟩ ∧
    handle_dispute env (some d) =
      .success "not accepted" "No proof links were provided." := by
  have h1 : get_ai_dispute_verdict env (parseContract d) =
      .ok ⟨"not accepted", "No proof links were provided."⟩ := by
    simp [get_ai_dispute_verdict, hrole, hlinks]
  refine ⟨h1, ?_⟩
  cases d with
  | nil => exact absurd rfl hd
  | cons kv tl => simp [handle_dispute, h1]

/-- Witness for the amended C4 on Scenario A's request body. -/
theorem claim_C4_amended_witness :
    get_ai_dispute_verdict envA (parseContract dScenarioA) =
      .ok ⟨"not accepted", "No proof links were provided."⟩ ∧
    handle_dispute envA (some dScenarioA) =
      .success "not accepted" "No proof links were provided." :=
  claim_C4_amended envA dScenarioA (by decide) (by decide) (by decide)

/-- C10: a present-but-empty `contractData` object is rejected exactly
like a missing one — the same 400 reply with the same message — and the
pipeline is never invoked (the reply is the same for every oracle
environment). -/
theorem claim_C10 (env : Env) :
    handle_dispute env (some []) =
      .failure 400 "Missing 'contractData' in request body." ∧
    handle_dispute env none =
      .failure 400 "Missing 'contractData' in request body." :=
  ⟨rfl, rfl⟩

/-- C1: once the pipeline reaches the judge stage, the outcome is exactly
the decision-field mapping of the produced verdict: "approved" yields
`accepted`, any other decision yields `not accepted`, and the reason is
the justification in both cases, for every justification text. -/
theorem claim_C1 (env : Env) (cd : ContractDetails) (proof_url : String)
    (rest : List String) (ev : EvidenceVal) (etype : String)
    (hrole : _classify_freelancer_role env cd ≠ "Unknown")
    (hlinks : cd.links.getD [] = proof_url :: rest)
    (hev : gatherEvidence env proof_url = .ok (some ev, etype))
    (htruthy : evTruthy ev = true) :
    get_ai_dispute_verdict env cd =
      .ok (mapVerdict (_verify_proof_with_role env cd ev etype
        (_classify_freelancer_role env cd))) ∧
    ∀ v : Verdict,
      (v.decision = "approved" → mapVerdict v = ⟨"accepted", v.justification⟩) ∧
      (v.decision ≠ "approved" →
        mapVerdict v = ⟨"not accepted", v.justification⟩) := by
  constructor
  · simp [get_ai_dispute_verdict, hrole, hlinks, hev, htruthy]
  · intro v
    constructor <;> intro hv <;> simp [mapVerdict, hv]

/-- Witness for C1 on the happy-path environment, whose judge approves. -/
theorem claim_C1_witness :
    get_ai_dispute_verdict envA cdA =
      .ok (mapVerdict (_verify_proof_with_role envA cdA
        (.fileList ["index.html", "style.css"]) "List of Files from GitHub"
        (_classify_freelancer_role envA cdA))) ∧
    ∀ v : Verdict,
      (v.decision = "approved" → mapVerdict v = ⟨"accepted", v.justification⟩) ∧
      (v.decision ≠ "approved" →
        mapVerdict v = ⟨"not accepted", v.justification⟩) :=
  claim_C1 envA cdA "https://github.com/acme/widgets" []
    (.fileList ["index.html", "style.css"]) "List of Files from GitHub"
    (by decide) rfl rfl rfl

/-- C5: when the selected provider hands back no evidence, the outcome
names the attempted URL in the could-not-access reason, and the judge
oracles are never consulted (the outcome is the same for every judge
behaviour). -/
theorem claim_C5 (env : Env) (cd : ContractDetails) (proof_url : String)
    (rest : List String) (etype : String)
    (hrole : _classify_freelancer_role env cd ≠ "Unknown")
    (hlinks : cd.links.getD [] = proof_url :: rest)
    (hev : gatherEvidence env proof_url = .ok (none, etype)) :
    ∀ jAi jDec,
      get_ai_dispute_verdict (setJudge env jAi jDec) cd =
        .ok ⟨"not accepted",
          "Could not access or process the proof from the provided link: "
            ++ proof_url⟩ := by
  intro jAi jDec
  have hrole' : _classify_freelancer_role (setJudge env jAi jDec) cd ≠
      "Unknown" := hrole
  have hev' : gatherEvidence (setJudge env jAi jDec) proof_url =
      .ok (none, etype) := hev
  simp [get_ai_dispute_verdict, hrole', hlinks, hev']

/-- Witness for C5: the GitHub listing fails, so the provider returns
`None` and every judge behaviour yields the same outcome. -/
theorem claim_C5_witness :
    get_ai_dispute_verdict
      (setJudge envNoEvidence (fun _ => .ok "approved-looking reply")
        (fun _ => .ok ⟨"approved", "should never be consulted"⟩)) cdA =
      .ok ⟨"not accepted",
        "Could not access or process the proof from the provided link: "
          ++ "https://github.com/acme/widgets"⟩ :=
  claim_C5 envNoEvidence cdA "https://github.com/acme/widgets" []
    "List of Files from GitHub" (by decide) rfl rfl
    (fun _ => .ok "approved-looking reply")
    (fun _ => .ok ⟨"approved", "should never be consulted"⟩)

/-- C6: when role classification yields "Unknown" the outcome is the
role-related rejection, and no evidence provider or judge oracle is ever
consulted (the outcome is the same for every behaviour of those
oracles). -/
theorem claim_C6 (env : Env) (cd : ContractDetails)
    (hrole : _classify_freelancer_role env cd = "Unknown") :
    ∀ gh dr wg ht jAi jDec,
      get_ai_dispute_verdict (setProviders env gh dr wg ht jAi jDec) cd =
        .ok ⟨"not accepted",
          "Could not determine freelancer role from contract."⟩ := by
  intro gh dr wg ht jAi jDec
  have hrole' : _classify_freelancer_role
      (setProviders env gh dr wg ht jAi jDec) cd = "Unknown" := hrole
  simp [get_ai_dispute_verdict, hrole']

/-- Witness for C6 with a raising role oracle. -/
theorem claim_C6_witness :
    get_ai_dispute_verdict
      (setProviders envRoleErr (fun _ => .ok ["index.html"])
        (fun _ => .ok ["mockup.png"]) (fun _ => .ok "<html></html>")
        (fun _ => .ok "page text") (fun _ => .ok "approved-looking reply")
        (fun _ => .ok ⟨"approved", "should never be consulted"⟩)) cdA =
      .ok ⟨"not accepted",
        "Could not determine freelancer role from contract."⟩ :=
  claim_C6 envRoleErr cdA rfl (fun _ => .ok ["index.html"])
    (fun _ => .ok ["mockup.png"]) (fun _ => .ok "<html></html>")
    (fun _ => .ok "page text") (fun _ => .ok "approved-looking reply")
    (fun _ => .ok ⟨"approved", "should never be consulted"⟩)

/-- An environment whose web fetch raises a request-level error. -/
def envScrapeDown : Env :=
  mkEnv (.ok "Web Developer") (.error "unused") (.error "unused")
    (.error "ReadTimeout: HTTPSConnectionPool read timed out")
    (.error "unused") (.error "unused") (.error "unused")

/-- An environment whose web fetch and parse both succeed. -/
def envScrapeOk : Env :=
  mkEnv (.ok "Web Developer") (.error "unused") (.error "unused")
    (.ok "<html><body>Acme widgets landing page</body></html>")
    (.ok "Acme widgets landing page") (.error "unused") (.error "unused")

/-- An environment whose web fetch succeeds but whose parse step raises a
non-request exception. -/
def envParseCrash : Env :=
  mkEnv (.ok "Web Developer") (.error "unused") (.error "unused")
    (.ok "<html><div><div><div>deeply nested</div></div></div></html>")
    (.error "RecursionError: maximum recursion depth exceeded")
    (.error "unused") (.error "unused")

/-- C7 fails on the code: `scrape_website_text` catches only
`requests.RequestException`, so a failure of its parsing step propagates
to the caller as a raised exception instead of the Absent sentinel. -/
theorem claim_C7_counterexample :
    scrape_website_text envParseCrash "https://myproject.vercel.app" =
      .error "RecursionError: maximum recursion depth exceeded" := rfl

/-- C7 amended: the repository-listing and folder-listing providers
convert every failure into the Absent sentinel and never raise; the
web-scrape provider converts request-level failures (network errors,
non-success responses, timeouts) into Absent, but an error raised by its
parsing step is not caught and propagates to the caller. -/
theorem claim_C7_amended (env : Env) (url : String) :
    (∃ r, get_github_repo_contents env url = .ok r) ∧
    (∃ r, get_google_drive_folder_contents env url = .ok r) ∧
    (∀ e, env.webGet url = .error e →
      scrape_website_text env url = .ok none) ∧
    (∀ content text, env.webGet url = .ok content →
      env.htmlToText content = .ok text →
      scrape_website_text env url = .ok (some text)) ∧
    (∀ content e, env.webGet url = .ok content →
      env.htmlToText content = .error e →
      scrape_website_text env url = .error e) := by
  refine ⟨?_, ?_, ?_, ?_, ?_⟩
  · unfold get_github_repo_contents
    cases githubFetch env url with
    | ok v => exact ⟨some v, rfl⟩
    | error e => exact ⟨none, rfl⟩
  · unfold get_google_drive_folder_contents
    cases env.driveApi (drive_folder_id url) with
    | ok v => exact ⟨some v, rfl⟩
    | error e => exact ⟨none, rfl⟩
  · intro e h
    simp [scrape_website_text, h]
  · intro content text h1 h2
    simp [scrape_website_text, h1, h2, Except.map]
  · intro content e h1 h2
    simp [scrape_website_text, h1, h2, Except.map]

/-- Witness for the amended C7: a timed-out fetch yields Absent, and a
successful fetch-and-parse yields the page text. -/
theorem claim_C7_amended_witness :
    scrape_website_text envScrapeDown "https://myproject.vercel.app" =
      .ok none ∧
    scrape_website_text envScrapeOk "https://myproject.vercel.app" =
      .ok (some "Acme widgets landing page") :=
  ⟨(claim_C7_amended envScrapeDown "https://myproject.vercel.app").2.2.1
      "ReadTimeout: HTTPSConnectionPool read timed out" rfl,
    (claim_C7_amended envScrapeOk "https://myproject.vercel.app").2.2.2.1
      "<html><body>Acme widgets landing page</body></html>"
      "Acme widgets landing page" rfl rfl⟩

/-- An environment whose judge AI call raises. -/
def envJudgeErr : Env :=
  mkEnv (.ok "Web Developer") (.ok ["index.html"]) (.error "unused")
    (.error "unused") (.error "unused") (.error "504 Deadline Exceeded")
    (.error "unused")

/-- An environment whose judge reply does not decode as JSON. -/
def envDecodeErr : Env :=
  mkEnv (.ok "Web Developer") (.ok ["index.html"]) (.error "unused")
    (.error "unused") (.error "unused")
    (.ok "I am sorry, I cannot answer in JSON.")
    (.error "Expecting value: line 1 column 1 (char 0)")

/-- C8: the judge strips code-fence markers before structured decoding;
an AI-call failure or a decode failure yields the error verdict with a
service error message, an error verdict is never "approved", a decoded
reply is returned as is, and the error decision maps to `not accepted`
rather than a crash. -/
theorem claim_C8 (env : Env) (cd : ContractDetails) (ev : EvidenceVal)
    (etype role : String) :
    (∀ e, env.judgeAi (judgePrompt cd ev etype) = .error e →
      _verify_proof_with_role env cd ev etype role =
        ⟨"error", "Gemini API error: " ++ e⟩) ∧
    (∀ raw e, env.judgeAi (judgePrompt cd ev etype) = .ok raw →
      env.jsonDecode (stripCodeFences raw) = .error e →
      _verify_proof_with_role env cd ev etype role =
        ⟨"error", "Gemini API error: " ++ e⟩ ∧
      (_verify_proof_with_role env cd ev etype role).decision ≠ "approved") ∧
    (∀ raw v, env.judgeAi (judgePrompt cd ev etype) = .ok raw →
      env.jsonDecode (stripCodeFences raw) = .ok v →
      _verify_proof_with_role env cd ev etype role = v) ∧
    (∀ j, mapVerdict ⟨"error", j⟩ = ⟨"not accepted", j⟩) := by
  refine ⟨?_, ?_, ?_, ?_⟩
  · intro e h
    simp [_verify_proof_with_role, h]
  · intro raw e h1 h2
    have hv : _verify_proof_with_role env cd ev etype role =
        ⟨"error", "Gemini API error: " ++ e⟩ := by
      simp [_verify_proof_with_role, h1, h2]
    exact ⟨hv, by simp [hv]⟩
  · intro raw v h1 h2
    simp [_verify_proof_with_role, h1, h2]
  · intro j
    simp [mapVerdict]

/-- Witness for C8: a raised judge call, an undecodable reply, and a
decodable approval, each at a concrete environment. -/
theorem claim_C8_witness :
    _verify_proof_with_role envJudgeErr cdA (.fileList ["index.html"])
      "List of Files from GitHub" "Web Developer" =
      ⟨"error", "Gemini API error: " ++ "504 Deadline Exceeded"⟩ ∧
    _verify_proof_with_role envDecodeErr cdA (.fileList ["index.html"])
      "List of Files from GitHub" "Web Developer" =
      ⟨"error", "Gemini API error: "
        ++ "Expecting value: line 1 column 1 (char 0)"⟩ ∧
    _verify_proof_with_role envA cdA (.fileList ["index.html", "style.css"])
      "List of Files from GitHub" "Web Developer" =
      ⟨"approved", "Matches described landing page work."⟩ ∧
    mapVerdict ⟨"error", ""⟩ = ⟨"not accepted", ""⟩ :=
  ⟨(claim_C8 envJudgeErr cdA (.fileList ["index.html"])
      "List of Files from GitHub" "Web Developer").1
      "504 Deadline Exceeded" rfl,
    ((claim_C8 envDecodeErr cdA (.fileList ["index.html"])
      "List of Files from GitHub" "Web Developer").2.1
      "I am sorry, I cannot answer in JSON."
      "Expecting value: line 1 column 1 (char 0)" rfl rfl).1,
    (claim_C8 envA cdA (.fileList ["index.html", "style.css"])
      "List of Files from GitHub" "Web Developer").2.2.1
      "```json\n\x7b\"decision\": \"approved\", \"justification\": \"Matches described landing page work.\"\x7d\n```"
      ⟨"approved", "Matches described landing page work."⟩ rfl rfl,
    (claim_C8 envA cdA (.fileList ["index.html", "style.css"])
      "List of Files from GitHub" "Web Developer").2.2.2 ""⟩

/-- Helper: the element at position `pre.length` of `pre ++ [a, b]`. -/
theorem getElem_append_pair_fst (pre : List String) (a b : String)
    (hi : pre.length < (pre ++ [a, b]).length) :
    (pre ++ [a, b])[pre.length] = a := by
  induction pre with
  | nil => rfl
  | cons x xs ih =>
    simp only [List.cons_append, List.length_cons, List.getElem_cons_succ]
    exact ih (by simp)

/-- Helper: the element at position `pre.length + 1` of `pre ++ [a, b]`. -/
theorem getElem_append_pair_snd (pre : List String) (a b : String)
    (hi : pre.length + 1 < (pre ++ [a, b]).length) :
    (pre ++ [a, b])[pre.length + 1] = b := by
  induction pre with
  | nil => rfl
  | cons x xs ih =>
    simp only [List.cons_append, List.length_cons, List.getElem_cons_succ]
    exact ih (by simp)

/-- C9: repository-URL parsing takes the last two slash-separated segments
of the (slash-stripped) URL as owner and repo and strips a trailing
".git" from the repo segment. -/
theorem claim_C9 (url owner repo : String) (pre : List String)
    (h : pySplit (pyStripChar url '/') "/" = pre ++ [owner, repo]) :
    parse_owner_repo url =
      .ok (owner,
        if pyEndsWith repo ".git" then pyDropRight repo 4 else repo) := by
  have hlen : 2 ≤ (pre ++ [owner, repo]).length := by simp
  have e1 : (pre ++ [owner, repo]).length - 2 = pre.length := by simp
  have e2 : (pre ++ [owner, repo]).length - 1 = pre.length + 1 := by
    simp [Nat.add_sub_cancel]
  simp only [parse_owner_repo, h, List.get_eq_getElem]
  rw [dif_pos hlen]
  simp only [e1, e2, getElem_append_pair_fst, getElem_append_pair_snd]

/-- Witness for C9 at the concrete URL of the spec's round-trip property:
the ".git" suffix is stripped. -/
theorem claim_C9_witness :
    parse_owner_repo "https://github.com/acme/widgets.git" =
      .ok ("acme", "widgets") :=
  (claim_C9 "https://github.com/acme/widgets.git" "acme" "widgets.git"
    ["https:", "", "github.com"] (by decide)).trans rfl

end ContractVault
